import Mathlib

/-!
Shallow embedding of the `clarity` cpufreq governor
(drivers/cpufreq/cpufreq_clarity.c) and verification of its
specification-level properties.

Machine integers are modelled as `Nat` with explicit reduction modulo
`2^32` (resp. `2^64`) exactly where the C code performs `unsigned int`
(resp. `u64`) arithmetic that may wrap.
-/

namespace Clarity

/-- Modulus of C `unsigned int` arithmetic. -/
def U32 : Nat := 4294967296

/-- Modulus of C `u64` arithmetic. -/
def U64 : Nat := 18446744073709551616

/-- Wrapping 32-bit subtraction `a - b` as performed on C `unsigned int`. -/
def sub32 (a b : Nat) : Nat := (a + (U32 - b % U32)) % U32

/-- Wrapping 64-bit subtraction `a - b` as performed on C `u64`. -/
def sub64 (a b : Nat) : Nat := (a + (U64 - b % U64)) % U64

/-- The tunable store `struct dbs_tuners`. -/
structure dbs_tuners where
  sampling_rate : Nat
  up_threshold : Nat
  down_threshold : Nat
  ignore_nice : Nat
  freq_middle : Nat
  freq_step_up : Nat
  freq_step_down : Nat
  freq_max_suspend : Nat
  freq_awake : Nat
  io_is_busy : Nat
deriving DecidableEq

/-- The initial value `dbs_tuners_ins` with the `DEF_*` defaults. -/
def dbs_tuners_ins : dbs_tuners :=
  { sampling_rate := 40000
    up_threshold := 70
    down_threshold := 30
    ignore_nice := 0
    freq_middle := 787200
    freq_step_up := 5
    freq_step_down := 5
    freq_max_suspend := 787200
    freq_awake := 998400
    io_is_busy := 0 }

/-- The slice of `struct cpufreq_policy` the governor reads and writes:
`policy->min`, `policy->max`, `policy->cur` and `policy->cpuinfo.max_freq`. -/
structure cpufreq_policy where
  min : Nat
  max : Nat
  cur : Nat
  cpuinfo_max_freq : Nat
deriving DecidableEq

/-- Per-unit controller state `struct cpu_dbs_info_s` (the fields the
modelled paths touch). -/
structure cpu_dbs_info_s where
  prev_cpu_idle : Nat
  prev_cpu_wall : Nat
  prev_cpu_nice : Nat
  down_skip : Nat
  requested_freq : Nat
  cpu_max_freq : Nat
  cpu_maxcur_freq : Nat
deriving DecidableEq

/-- `CPUFREQ_RELATION_L` (lowest rate at or above target) and
`CPUFREQ_RELATION_H` (highest rate at or below target). -/
inductive cpufreq_relation where
  | L
  | H
deriving DecidableEq

/-- One reading of the external utilization source for one unit:
the values `get_cpu_idle_time` and `kcpustat` return this cycle. -/
structure cpu_sample where
  cur_idle_time : Nat
  cur_wall_time : Nat
  cur_nice_time : Nat
deriving DecidableEq

/-- One iteration of the `for_each_cpu(j, policy->cpus)` sampling loop of
`dbs_check_cpu`: updates the prev counters of unit `j` and returns the
computed load, or `none` when the guard
`!wall_time || wall_time < idle_time` discards the sample.
`n2u` stands for the external conversion
`jiffies_to_usecs (cputime64_to_jiffies64 cur_nice)`. -/
def dbs_sample_one (t : dbs_tuners) (n2u : Nat → Nat) (j : cpu_dbs_info_s)
    (s : cpu_sample) : cpu_dbs_info_s × Option Nat :=
  let wall_time := sub64 s.cur_wall_time j.prev_cpu_wall % U32
  let idle_time := sub64 s.cur_idle_time j.prev_cpu_idle % U32
  let j1 := { j with prev_cpu_wall := s.cur_wall_time,
                     prev_cpu_idle := s.cur_idle_time }
  let p :=
    if t.ignore_nice ≠ 0 then
      ({ j1 with prev_cpu_nice := s.cur_nice_time },
       (idle_time + n2u (sub64 s.cur_nice_time j.prev_cpu_nice)) % U32)
    else (j1, idle_time)
  if wall_time = 0 ∨ wall_time < p.2 then (p.1, none)
  else (p.1, some (100 * (wall_time - p.2) % U32 / wall_time))

/-- One step of the sampling loop: accumulate the updated unit state and
fold the computed load into `max_load` (a discarded sample leaves
`max_load` as it was). -/
def dbs_sample_step (t : dbs_tuners) (n2u : Nat → Nat)
    (acc : List cpu_dbs_info_s × Nat) (u : cpu_dbs_info_s × cpu_sample) :
    List cpu_dbs_info_s × Nat :=
  let r := dbs_sample_one t n2u u.1 u.2
  match r.2 with
  | none => (acc.1 ++ [r.1], acc.2)
  | some load => (acc.1 ++ [r.1], if load > acc.2 then load else acc.2)

/-- The whole sampling loop of `dbs_check_cpu` over the group
`policy->cpus`: returns the updated per-unit states and `max_load`. -/
def dbs_sample_group (t : dbs_tuners) (n2u : Nat → Nat)
    (units : List (cpu_dbs_info_s × cpu_sample)) :
    List cpu_dbs_info_s × Nat :=
  units.foldl (dbs_sample_step t n2u) ([], 0)

/-- Outcome of the three-zone decision of `dbs_check_cpu`: the updated
decision fields of `this_dbs_info` and the `__cpufreq_driver_target`
request issued, if any. -/
structure dbs_decision where
  info : cpu_dbs_info_s
  request : Option (Nat × cpufreq_relation)
deriving DecidableEq

/-- The three-zone decision part of `dbs_check_cpu` (source lines
620-687), with `unsigned int` arithmetic made explicit: the increase-zone
addition, the decrease-zone subtraction and the step multiplications all
wrap modulo `2^32`. -/
def dbs_decide (t : dbs_tuners) (policy : cpufreq_policy)
    (info : cpu_dbs_info_s) (max_load : Nat) : dbs_decision :=
  if max_load > t.up_threshold then
    if t.freq_step_up = 0 then { info := info, request := none }
    else
      let info1 := { info with down_skip := 0 }
      if info1.requested_freq = policy.max then { info := info1, request := none }
      else
        let ft0 := t.freq_step_up * policy.cpuinfo_max_freq % U32 / 100
        let ft := if ft0 = 0 then 5 else ft0
        let rf0 := (info1.requested_freq + ft) % U32
        let rf := if rf0 > policy.max then policy.max else rf0
        { info := { info1 with requested_freq := rf },
          request := some (rf, cpufreq_relation.L) }
  else if max_load < t.down_threshold then
    if t.freq_step_down = 0 then { info := info, request := none }
    else
      let ft := t.freq_step_down * policy.cpuinfo_max_freq % U32 / 100
      let rf0 := sub32 info.requested_freq ft
      let rf := if rf0 < policy.min then policy.min else rf0
      let info1 := { info with requested_freq := rf }
      if policy.cur = policy.min then { info := info1, request := none }
      else { info := info1, request := some (rf, cpufreq_relation.H) }
  else
    if policy.cur = t.freq_middle then { info := info, request := none }
    else
      let rf0 := t.freq_middle
      let rf := if rf0 > policy.max then policy.max
                else if rf0 < policy.min then policy.min
                else rf0
      { info := { info with requested_freq := rf },
        request := some (rf, cpufreq_relation.L) }

/-- The increase-zone step target of `dbs_check_cpu`:
`freq_step_up * cpuinfo.max_freq / 100` in 32-bit arithmetic, with the
fallback to `5` when the quotient is `0`. -/
def freq_target_up (t : dbs_tuners) (policy : cpufreq_policy) : Nat :=
  let ft0 := t.freq_step_up * policy.cpuinfo_max_freq % U32 / 100
  if ft0 = 0 then 5 else ft0

/-- The decrease-zone step target of `dbs_check_cpu`:
`freq_step_down * cpuinfo.max_freq / 100` in 32-bit arithmetic. -/
def freq_target_down (t : dbs_tuners) (policy : cpufreq_policy) : Nat :=
  t.freq_step_down * policy.cpuinfo_max_freq % U32 / 100

/-- One whole cycle of `dbs_check_cpu`: the sampling loop over the group
followed by the three-zone decision on `this_dbs_info`. The sampling loop
touches only the `prev_*` fields and the decision only `down_skip` and
`requested_freq`, so splitting the current unit's record between the two
phases is observationally equal to the in-place mutation of the C code. -/
def dbs_check_cpu (t : dbs_tuners) (n2u : Nat → Nat)
    (policy : cpufreq_policy) (group : List (cpu_dbs_info_s × cpu_sample))
    (this_dbs_info : cpu_dbs_info_s) : List cpu_dbs_info_s × dbs_decision :=
  let s := dbs_sample_group t n2u group
  (s.1, dbs_decide t policy this_dbs_info s.2)

/-- One online unit as seen by the power-state coordinator: its per-cpu
controller record and its policy. The list index is the cpu id. -/
structure suspend_unit where
  info : cpu_dbs_info_s
  policy : cpufreq_policy
deriving DecidableEq

/-- The suspend branch of the `for_each_online_cpu` loop of
`suspend_resume`: snapshot `policy->max` into `cpu_maxcur_freq` and lower
both `policy->max` and `policy->cpuinfo.max_freq` to
`freq_max_suspend`. -/
def suspend_units (t : dbs_tuners) : List suspend_unit → List suspend_unit
  | [] => []
  | u :: rest =>
      let p := { u.policy with max := t.freq_max_suspend,
                               cpuinfo_max_freq := t.freq_max_suspend }
      { info := { u.info with cpu_maxcur_freq := u.policy.max },
        policy := p } :: suspend_units t rest

/-- The resume branch of the loop in `suspend_resume`, carrying the
running cpu id: for `cpu != 0` the code rebinds `cpu_info` to
`per_cpu(clarity_cpu_dbs_info, 0)` — here `cpu0_info` — before restoring
`policy->cpuinfo.max_freq` from `cpu_max_freq` and `policy->max` from
`cpu_maxcur_freq`. The loop never mutates any `cpu_dbs_info_s`, so
reading cpu 0's record from the pre-loop list is faithful. -/
def resume_units (cpu0_info : cpu_dbs_info_s) (cpu : Nat) :
    List suspend_unit → List suspend_unit
  | [] => []
  | u :: rest =>
      let src := if cpu ≠ 0 then cpu0_info else u.info
      let p := { u.policy with cpuinfo_max_freq := src.cpu_max_freq,
                               max := src.cpu_maxcur_freq }
      { info := u.info, policy := p } :: resume_units cpu0_info (cpu + 1) rest

/-- `suspend_resume` (source lines 188-213). -/
def suspend_resume (t : dbs_tuners) (susp : Bool)
    (units : List suspend_unit) : List suspend_unit :=
  if susp then suspend_units t units
  else
    match units with
    | [] => []
    | u0 :: rest => resume_units u0.info 0 (u0 :: rest)

/-- `clarity_power_suspend`: a no-op on the units when
`freq_max_suspend == 0`. -/
def clarity_power_suspend (t : dbs_tuners) (units : List suspend_unit) :
    List suspend_unit :=
  if t.freq_max_suspend = 0 then units else suspend_resume t true units

/-- `clarity_late_resume`: restores the ceilings via `suspend_resume`
and then issues one `__cpufreq_driver_target(freq_awake, RELATION_L)`
request per online unit. Returns the updated units and those requests. -/
def clarity_late_resume (t : dbs_tuners) (units : List suspend_unit) :
    List suspend_unit × List (Nat × cpufreq_relation) :=
  if t.freq_max_suspend = 0 then (units, [])
  else
    let units1 := suspend_resume t false units
    (units1, units1.map fun _ => (t.freq_awake, cpufreq_relation.L))

/-- The kernel error code `EINVAL`; rejected stores return `-EINVAL`. -/
def EINVAL : Int := 22

/-- `store_up_threshold`. The `Option Nat` input is the result of
`sscanf(buf, "%u", &input)`: `none` when parsing fails. A successful
store returns the positive byte count; it is modelled as `1`. -/
def store_up_threshold (t : dbs_tuners) (buf : Option Nat) :
    Int × dbs_tuners :=
  match buf with
  | none => (-EINVAL, t)
  | some input =>
    if input > 100 ∨ input ≤ t.down_threshold then (-EINVAL, t)
    else (1, { t with up_threshold := input })

/-- `store_down_threshold`. -/
def store_down_threshold (t : dbs_tuners) (buf : Option Nat) :
    Int × dbs_tuners :=
  match buf with
  | none => (-EINVAL, t)
  | some input =>
    if input < 11 ∨ input > 100 ∨ input ≥ t.up_threshold then (-EINVAL, t)
    else (1, { t with down_threshold := input })

/-- `store_ignore_nice_load`: clamps inputs above 1 to 1 and commits.
The returned `Bool` records whether the per-unit accounting baselines
were resynchronized (the `for_each_online_cpu` re-evaluation loop ran). -/
def store_ignore_nice_load (t : dbs_tuners) (buf : Option Nat) :
    Int × dbs_tuners × Bool :=
  match buf with
  | none => (-EINVAL, t, false)
  | some input0 =>
    let input := if input0 > 1 then 1 else input0
    if input = t.ignore_nice then (1, t, false)
    else (1, { t with ignore_nice := input }, true)

/-- `store_freq_middle`: commits any parsed value, with no range check. -/
def store_freq_middle (t : dbs_tuners) (buf : Option Nat) :
    Int × dbs_tuners :=
  match buf with
  | none => (-EINVAL, t)
  | some input => (1, { t with freq_middle := input })

/-- `store_freq_step_up`: clamps inputs above 100 to 100 and commits. -/
def store_freq_step_up (t : dbs_tuners) (buf : Option Nat) :
    Int × dbs_tuners :=
  match buf with
  | none => (-EINVAL, t)
  | some input0 =>
    let input := if input0 > 100 then 100 else input0
    (1, { t with freq_step_up := input })

/-- `store_freq_step_down`: clamps inputs above 100 to 100 and commits. -/
def store_freq_step_down (t : dbs_tuners) (buf : Option Nat) :
    Int × dbs_tuners :=
  match buf with
  | none => (-EINVAL, t)
  | some input0 =>
    let input := if input0 > 100 then 100 else input0
    (1, { t with freq_step_down := input })

/-- `store_io_is_busy`: rejects values above 1. -/
def store_io_is_busy (t : dbs_tuners) (buf : Option Nat) :
    Int × dbs_tuners :=
  match buf with
  | none => (-EINVAL, t)
  | some input =>
    if input > 1 then (-EINVAL, t)
    else (1, { t with io_is_busy := input })

/-- `store_freq_max_suspend`. `pmax` is `cpufreq_cpu_get(0)->max`. The
source also tests `input < 0`, which is vacuous on `unsigned int`. -/
def store_freq_max_suspend (pmax : Nat) (t : dbs_tuners)
    (buf : Option Nat) : Int × dbs_tuners :=
  match buf with
  | none => (-EINVAL, t)
  | some input =>
    if input > pmax ∨ input < t.freq_middle then (-EINVAL, t)
    else (1, { t with freq_max_suspend := input })

/-- `store_freq_awake`. `pmax` is `cpufreq_cpu_get(0)->max`. -/
def store_freq_awake (pmax : Nat) (t : dbs_tuners) (buf : Option Nat) :
    Int × dbs_tuners :=
  match buf with
  | none => (-EINVAL, t)
  | some input =>
    if input > pmax then (-EINVAL, t)
    else (1, { t with freq_awake := input })

/-- State of one unit's delayed work item. `expires` is the scheduled
fire time in jiffies (`dbs_info->work.timer.expires`). -/
structure timer_state where
  pending : Bool
  expires : Nat
deriving DecidableEq

/-- Effect of `update_sampling_rate` on the tunable store:
`sampling_rate = max(new_rate, min_sampling_rate)`. -/
def update_sampling_rate_tuners (min_sampling_rate : Nat)
    (t : dbs_tuners) (new_rate : Nat) : dbs_tuners :=
  { t with sampling_rate := Nat.max new_rate min_sampling_rate }

/-- Effect of `update_sampling_rate` on one unit's delayed work item.
`u2j` stands for the external `usecs_to_jiffies` conversion and `now` is
the current `jiffies`. A pending fire is cancelled and requeued with
delay `u2j new_rate` exactly when `now + u2j new_rate` comes strictly
before the currently appointed fire time; otherwise it is untouched. -/
def update_sampling_rate_unit (min_sampling_rate : Nat) (u2j : Nat → Nat)
    (now : Nat) (new_rate0 : Nat) (ts : timer_state) : timer_state :=
  let new_rate := Nat.max new_rate0 min_sampling_rate
  if ts.pending then
    let next_sampling := now + u2j new_rate
    if next_sampling < ts.expires then
      { pending := true, expires := now + u2j new_rate }
    else ts
  else ts

/-- `store_sampling_rate`: parse, then `update_sampling_rate` (its store
effect and its scheduling effect on one unit). -/
def store_sampling_rate (min_sampling_rate : Nat) (u2j : Nat → Nat)
    (now : Nat) (t : dbs_tuners) (buf : Option Nat) (ts : timer_state) :
    Int × dbs_tuners × timer_state :=
  match buf with
  | none => (-EINVAL, t, ts)
  | some input =>
    (1, update_sampling_rate_tuners min_sampling_rate t input,
     update_sampling_rate_unit min_sampling_rate u2j now input ts)

/-- Configuration states reachable from the defaults through the two
threshold write accessors. -/
inductive thresholds_reachable : dbs_tuners → Prop where
  | init : thresholds_reachable dbs_tuners_ins
  | wr_up : ∀ t buf, thresholds_reachable t →
      thresholds_reachable (store_up_threshold t buf).2
  | wr_down : ∀ t buf, thresholds_reachable t →
      thresholds_reachable (store_down_threshold t buf).2

/-- The threshold ordering invariant of the tunable store. -/
def thresholds_ok (t : dbs_tuners) : Prop :=
  t.down_threshold < t.up_threshold ∧ 11 ≤ t.down_threshold ∧
    t.down_threshold ≤ 100 ∧ t.up_threshold ≤ 100

/-! ## General lemmas -/

lemma sub32_of_le (a b : Nat) (hb : b ≤ a) (ha : a < U32) :
    sub32 a b = a - b := by
  have hU : U32 = 4294967296 := rfl
  unfold sub32
  have hbU : b % U32 = b := Nat.mod_eq_of_lt (lt_of_le_of_lt hb ha)
  rw [hbU]
  have h1 : a + (U32 - b) = (a - b) + U32 := by omega
  rw [h1, Nat.add_mod_right]
  exact Nat.mod_eq_of_lt (by omega)

lemma freq_target_up_lt (t : dbs_tuners) (policy : cpufreq_policy) :
    freq_target_up t policy ≤ 42949672 := by
  unfold freq_target_up
  have h : t.freq_step_up * policy.cpuinfo_max_freq % U32 < U32 :=
    Nat.mod_lt _ (by decide)
  have h2 : t.freq_step_up * policy.cpuinfo_max_freq % U32 / 100 ≤ U32 / 100 :=
    Nat.div_le_div_right h.le
  have hU : U32 / 100 = 42949672 := by decide
  simp only []
  split <;> omega

lemma freq_target_down_lt (t : dbs_tuners) (policy : cpufreq_policy) :
    freq_target_down t policy ≤ 42949672 := by
  unfold freq_target_down
  have h : t.freq_step_down * policy.cpuinfo_max_freq % U32 < U32 :=
    Nat.mod_lt _ (by decide)
  have h2 : t.freq_step_down * policy.cpuinfo_max_freq % U32 / 100 ≤ U32 / 100 :=
    Nat.div_le_div_right h.le
  have hU : U32 / 100 = 42949672 := by decide
  omega

/-! ## Claim theorems -/

/-- C6: every configuration state reachable through the `up_threshold`
and `down_threshold` write accessors satisfies
`down_threshold < up_threshold`, `11 ≤ down_threshold ≤ 100` and
`up_threshold ≤ 100`; a write whose value would violate these
constraints returns `-EINVAL` and leaves both stored thresholds
unchanged. -/
theorem C6_threshold_invariant :
    (∀ t, thresholds_reachable t → thresholds_ok t) ∧
    (∀ t input, input > 100 ∨ input ≤ t.down_threshold →
      store_up_threshold t (some input) = (-EINVAL, t)) ∧
    (∀ t input, input < 11 ∨ input > 100 ∨ input ≥ t.up_threshold →
      store_down_threshold t (some input) = (-EINVAL, t)) := by
  refine ⟨?_, ?_, ?_⟩
  · intro t h
    induction h with
    | init => unfold thresholds_ok; decide
    | wr_up t buf _ ih =>
        match buf with
        | none => exact ih
        | some input =>
            unfold thresholds_ok at *
            simp only [store_up_threshold]
            split
            · exact ih
            · simp only []
              omega
    | wr_down t buf _ ih =>
        match buf with
        | none => exact ih
        | some input =>
            unfold thresholds_ok at *
            simp only [store_down_threshold]
            split
            · exact ih
            · simp only []
              omega
  · intro t input h
    simp only [store_up_threshold]
    rw [if_pos h]
  · intro t input h
    simp only [store_down_threshold]
    rw [if_pos h]

theorem C6_witness :
    thresholds_ok dbs_tuners_ins ∧
      store_up_threshold dbs_tuners_ins (some 20) = (-EINVAL, dbs_tuners_ins) ∧
      store_down_threshold dbs_tuners_ins (some 5) = (-EINVAL, dbs_tuners_ins) :=
  ⟨C6_threshold_invariant.1 _ thresholds_reachable.init,
   C6_threshold_invariant.2.1 _ 20 (Or.inr (by decide)),
   C6_threshold_invariant.2.2 _ 5 (Or.inl (by decide))⟩

/-- C7 counterexample: the out-of-range write `150` to `freq_step_up` is
not rejected — it succeeds and commits the clamped value `100`,
contradicting "rejected with a rejection signal and the store left
completely unchanged, never clamped and committed". -/
theorem C7_counterexample :
    (store_freq_step_up dbs_tuners_ins (some 150)).1 ≠ -EINVAL ∧
      (store_freq_step_up dbs_tuners_ins (some 150)).2 ≠ dbs_tuners_ins ∧
      (store_freq_step_up dbs_tuners_ins (some 150)).2.freq_step_up = 100 := by
  decide

/-- C7 (amended): only some tunable stores reject out-of-range values;
others clamp and commit. `freq_step_up` and `freq_step_down` commit
`min(input, 100)`; `sampling_rate` commits `max(input, min_sampling_rate)`;
`ignore_nice_load` commits `min(input, 1)`; `io_is_busy` genuinely
rejects values above 1 leaving the store unchanged; malformed
(unparsable) input is rejected everywhere with the store unchanged. -/
theorem C7_store_discipline_amended :
    (∀ t input, store_freq_step_up t (some input) =
        (1, { t with freq_step_up := Nat.min input 100 })) ∧
    (∀ t input, store_freq_step_down t (some input) =
        (1, { t with freq_step_down := Nat.min input 100 })) ∧
    (∀ msr u2j now t ts input,
        (store_sampling_rate msr u2j now t (some input) ts).2.1.sampling_rate =
          Nat.max input msr) ∧
    (∀ t input,
        (store_ignore_nice_load t (some input)).2.1.ignore_nice = Nat.min input 1) ∧
    (∀ t input, input > 1 → store_io_is_busy t (some input) = (-EINVAL, t)) ∧
    (∀ msr u2j now t ts,
        store_freq_step_up t none = (-EINVAL, t) ∧
        store_ignore_nice_load t none = (-EINVAL, t, false) ∧
        store_sampling_rate msr u2j now t none ts = (-EINVAL, t, ts)) := by
  refine ⟨?_, ?_, ?_, ?_, ?_, ?_⟩
  · intro t input
    simp only [store_freq_step_up]
    have h : (if input > 100 then 100 else input) = Nat.min input 100 := by
      show (if input > 100 then 100 else input) = if input ≤ 100 then input else 100
      split <;> split <;> omega
    rw [h]
  · intro t input
    simp only [store_freq_step_down]
    have h : (if input > 100 then 100 else input) = Nat.min input 100 := by
      show (if input > 100 then 100 else input) = if input ≤ 100 then input else 100
      split <;> split <;> omega
    rw [h]
  · intro msr u2j now t ts input
    simp only [store_sampling_rate, update_sampling_rate_tuners]
  · intro t input
    simp only [store_ignore_nice_load]
    have h : (if input > 1 then 1 else input) = Nat.min input 1 := by
      show (if input > 1 then 1 else input) = if input ≤ 1 then input else 1
      split <;> split <;> omega
    rw [h]
    split
    · next heq => simp only []; omega
    · simp only []
  · intro t input h
    simp only [store_io_is_busy]
    rw [if_pos h]
  · intro msr u2j now t ts
    exact ⟨rfl, rfl, rfl⟩

theorem C7_witness :
    store_io_is_busy dbs_tuners_ins (some 2) = (-EINVAL, dbs_tuners_ins) :=
  C7_store_discipline_amended.2.2.2.2.1 dbs_tuners_ins 2 (by decide)

/-- C9: a write of a new `sampling_period` whose implied wake time
`now + new period` is strictly earlier than a unit's currently appointed
fire time cancels the pending fire and schedules a new one at the new
period from the time of the write; when the implied wake time is later
than or equal to the appointed one, the pending fire is left untouched
(and the stored period still takes the new value, picked up at the next
natural re-arm). -/
theorem C9_live_period_change (msr : Nat) (u2j : Nat → Nat)
    (now new_rate : Nat) (t : dbs_tuners) (ts : timer_state)
    (hpend : ts.pending = true) (hmin : msr ≤ new_rate) :
    (now + u2j new_rate < ts.expires →
      update_sampling_rate_unit msr u2j now new_rate ts =
        { pending := true, expires := now + u2j new_rate }) ∧
    (ts.expires ≤ now + u2j new_rate →
      update_sampling_rate_unit msr u2j now new_rate ts = ts) ∧
    (update_sampling_rate_tuners msr t new_rate).sampling_rate = new_rate := by
  have hmax : Nat.max new_rate msr = new_rate := by
    show (if new_rate ≤ msr then msr else new_rate) = new_rate
    split <;> omega
  refine ⟨?_, ?_, ?_⟩
  · intro h
    simp only [update_sampling_rate_unit, hmax, hpend, if_true]
    rw [if_pos h]
  · intro h
    simp only [update_sampling_rate_unit, hmax, hpend, if_true]
    rw [if_neg (by omega)]
  · simp only [update_sampling_rate_tuners, hmax]

theorem C9_witness :
    update_sampling_rate_unit 5 (fun x => x) 0 10 ⟨true, 40⟩ = ⟨true, 10⟩ ∧
      update_sampling_rate_unit 5 (fun x => x) 0 50 ⟨true, 40⟩ = ⟨true, 40⟩ :=
  ⟨(C9_live_period_change 5 (fun x => x) 0 10 dbs_tuners_ins ⟨true, 40⟩ rfl
      (by decide)).1 (by decide),
   (C9_live_period_change 5 (fun x => x) 0 50 dbs_tuners_ins ⟨true, 40⟩ rfl
      (by decide)).2.1 (by decide)⟩

/-- C10: the `freq_middle` write accessor accepts every parsed input
with no range or cross-field check, while `freq_max_suspend` rejects
values below `freq_middle`; consequently a `freq_middle` write can leave
`freq_middle` above `freq_max_suspend`, so the cross-field constraint is
enforced from only one of the two writers. -/
theorem C10_freq_middle_unchecked :
    (∀ t input, store_freq_middle t (some input) =
        (1, { t with freq_middle := input })) ∧
    (∀ pmax t input, input < t.freq_middle →
      store_freq_max_suspend pmax t (some input) = (-EINVAL, t)) ∧
    (store_freq_middle dbs_tuners_ins (some 900000)).2.freq_middle >
      (store_freq_middle dbs_tuners_ins (some 900000)).2.freq_max_suspend := by
  refine ⟨fun t input => rfl, ?_, by decide⟩
  intro pmax t input h
  simp only [store_freq_max_suspend]
  rw [if_pos (Or.inr h)]

theorem C10_witness :
    store_freq_max_suspend 1800000 dbs_tuners_ins (some 300000) =
      (-EINVAL, dbs_tuners_ins) :=
  C10_freq_middle_unchecked.2.1 1800000 dbs_tuners_ins 300000 (by decide)

/-- C8: in the settle zone (load between the thresholds inclusive), if
the current actual rate already equals `freq_middle` nothing changes and
no request is issued; otherwise `requested_freq` is set to `freq_middle`
clamped into `[policy->min, policy->max]` and requested with relation
at-least. -/
theorem C8_settle_zone (t : dbs_tuners) (policy : cpufreq_policy)
    (info : cpu_dbs_info_s) (load : Nat)
    (h1 : t.down_threshold ≤ load) (h2 : load ≤ t.up_threshold)
    (hmm : policy.min ≤ policy.max) :
    (policy.cur = t.freq_middle →
      dbs_decide t policy info load = { info := info, request := none }) ∧
    (policy.cur ≠ t.freq_middle →
      (dbs_decide t policy info load).info =
        { info with requested_freq := Nat.max (Nat.min t.freq_middle policy.max) policy.min } ∧
      (dbs_decide t policy info load).request =
        some (Nat.max (Nat.min t.freq_middle policy.max) policy.min,
              cpufreq_relation.L)) := by
  have hclamp :
      (if t.freq_middle > policy.max then policy.max
       else if t.freq_middle < policy.min then policy.min
       else t.freq_middle) =
        Nat.max (Nat.min t.freq_middle policy.max) policy.min := by
    show _ = if (if t.freq_middle ≤ policy.max then t.freq_middle
                 else policy.max) ≤ policy.min
             then policy.min
             else if t.freq_middle ≤ policy.max then t.freq_middle
                  else policy.max
    split_ifs <;> omega
  constructor
  · intro hcur
    simp only [dbs_decide]
    rw [if_neg (by omega), if_neg (by omega), if_pos hcur]
  · intro hcur
    simp only [dbs_decide]
    rw [if_neg (by omega), if_neg (by omega), if_neg hcur, hclamp]
    exact ⟨rfl, rfl⟩

theorem C8_witness :
    (dbs_decide dbs_tuners_ins ⟨300000, 1800000, 900000, 1800000⟩
        ⟨0, 0, 0, 0, 900000, 0, 0⟩ 50).request =
      some (787200, cpufreq_relation.L) := by
  have h := (C8_settle_zone dbs_tuners_ins ⟨300000, 1800000, 900000, 1800000⟩
      ⟨0, 0, 0, 0, 900000, 0, 0⟩ 50 (by decide) (by decide) (by decide)).2
      (by decide)
  rw [h.2]
  decide

/-- C3 counterexample: with `freq_step_up = 1` and a reported max of
`99`, the percentage target computes to `0` and the code falls back to a
step of `5`, not `max(..., 1) = 1` as the claim states: from
`requested_freq = 150` the code reaches `155`, the claim predicts
`151`. -/
theorem C3_counterexample :
    (dbs_decide { dbs_tuners_ins with freq_step_up := 1 }
        ⟨100, 2000, 500, 99⟩ ⟨0, 0, 0, 0, 150, 0, 0⟩ 80).info.requested_freq
        = 155 ∧
      ¬ (dbs_decide { dbs_tuners_ins with freq_step_up := 1 }
          ⟨100, 2000, 500, 99⟩ ⟨0, 0, 0, 0, 150, 0, 0⟩ 80).info.requested_freq
          = Nat.min
              (150 + Nat.max (1 * 99 / 100) 1) 2000 := by
  decide

/-- C3 (amended): in the increase zone with a nonzero `freq_step_up`,
the step target is `freq_step_up * reported_max / 100` (32-bit) with a
fallback of `5` — not `1` — when that quotient is zero; when
`requested_freq` is not yet at `policy->max`, the code sets
`requested_freq = min(old + target, policy->max)`, resets `down_skip`
and requests at-least; when `requested_freq` already equals
`policy->max`, `down_skip` is still reset to `0` but `requested_freq` is
unchanged and no request is issued. -/
theorem C3_increase_zone_amended (t : dbs_tuners) (policy : cpufreq_policy)
    (info : cpu_dbs_info_s) (load : Nat)
    (hload : load > t.up_threshold) (hstep : t.freq_step_up ≠ 0)
    (hmax : policy.max < 2147483648)
    (hhi : info.requested_freq ≤ policy.max) :
    (info.requested_freq = policy.max →
      dbs_decide t policy info load =
        { info := { info with down_skip := 0 }, request := none }) ∧
    (info.requested_freq ≠ policy.max →
      (dbs_decide t policy info load).info =
        { info with down_skip := 0, requested_freq := Nat.min (info.requested_freq + freq_target_up t policy) policy.max } ∧
      (dbs_decide t policy info load).request =
        some (Nat.min (info.requested_freq + freq_target_up t policy)
                policy.max,
              cpufreq_relation.L)) := by
  have hU : U32 = 4294967296 := rfl
  have hft := freq_target_up_lt t policy
  constructor
  · intro heq
    simp only [dbs_decide]
    rw [if_pos hload, if_neg hstep, if_pos heq]
  · intro hne
    simp only [dbs_decide]
    rw [if_pos hload, if_neg hstep, if_neg hne]
    have hmod : (info.requested_freq +
        (if t.freq_step_up * policy.cpuinfo_max_freq % U32 / 100 = 0 then 5
         else t.freq_step_up * policy.cpuinfo_max_freq % U32 / 100)) % U32 =
        info.requested_freq + freq_target_up t policy := by
      have : (if t.freq_step_up * policy.cpuinfo_max_freq % U32 / 100 = 0
              then 5
              else t.freq_step_up * policy.cpuinfo_max_freq % U32 / 100) =
          freq_target_up t policy := rfl
      rw [this]
      exact Nat.mod_eq_of_lt (by omega)
    rw [hmod]
    have hminv : (if info.requested_freq + freq_target_up t policy > policy.max
                  then policy.max
                  else info.requested_freq + freq_target_up t policy) =
        Nat.min (info.requested_freq + freq_target_up t policy) policy.max := by
      show _ = if info.requested_freq + freq_target_up t policy ≤ policy.max
               then info.requested_freq + freq_target_up t policy
               else policy.max
      split <;> split <;> omega
    rw [hminv]
    exact ⟨rfl, rfl⟩

theorem C3_witness :
    (dbs_decide dbs_tuners_ins ⟨300000, 1800000, 900000, 1800000⟩
        ⟨0, 0, 0, 0, 900000, 0, 0⟩ 80).request =
      some (990000, cpufreq_relation.L) := by
  have h := (C3_increase_zone_amended dbs_tuners_ins
      ⟨300000, 1800000, 900000, 1800000⟩ ⟨0, 0, 0, 0, 900000, 0, 0⟩ 80
      (by decide) (by decide) (by decide) (by decide)).2 (by decide)
  rw [h.2]
  decide

/-- The three-zone decision preserves `policy->min ≤ requested_freq ≤
policy->max` provided the decrease-zone step does not exceed the current
`requested_freq` (otherwise the unsigned subtraction wraps) and the
frequencies are below `2^31` (so the increase-zone addition cannot
wrap). -/
lemma dbs_decide_preserves_bounds (t : dbs_tuners) (policy : cpufreq_policy)
    (info : cpu_dbs_info_s) (load : Nat)
    (hmm : policy.min ≤ policy.max) (hmax : policy.max < 2147483648)
    (hlo : policy.min ≤ info.requested_freq)
    (hhi : info.requested_freq ≤ policy.max)
    (hdown : freq_target_down t policy ≤ info.requested_freq) :
    policy.min ≤ (dbs_decide t policy info load).info.requested_freq ∧
      (dbs_decide t policy info load).info.requested_freq ≤ policy.max := by
  have hU : U32 = 4294967296 := rfl
  have hftu := freq_target_up_lt t policy
  by_cases h1 : load > t.up_threshold
  · by_cases h2 : t.freq_step_up = 0
    · simp only [dbs_decide, if_pos h1, if_pos h2]
      exact ⟨hlo, hhi⟩
    · by_cases h3 : info.requested_freq = policy.max
      · simp only [dbs_decide, if_pos h1, if_neg h2]
        rw [if_pos h3]
        exact ⟨hlo, hhi⟩
      · simp only [dbs_decide, if_pos h1, if_neg h2]
        rw [if_neg h3]
        have hftdef : (if t.freq_step_up * policy.cpuinfo_max_freq % U32 / 100 = 0
            then 5
            else t.freq_step_up * policy.cpuinfo_max_freq % U32 / 100) =
            freq_target_up t policy := rfl
        rw [hftdef]
        have hmod : (info.requested_freq + freq_target_up t policy) % U32 =
            info.requested_freq + freq_target_up t policy :=
          Nat.mod_eq_of_lt (by omega)
        rw [hmod]
        split
        · exact ⟨hmm, le_refl _⟩
        · next hle =>
            refine ⟨?_, ?_⟩
            · show policy.min ≤ info.requested_freq + freq_target_up t policy
              omega
            · show info.requested_freq + freq_target_up t policy ≤ policy.max
              omega
  · by_cases h4 : load < t.down_threshold
    · by_cases h5 : t.freq_step_down = 0
      · simp only [dbs_decide, if_neg h1, if_pos h4, if_pos h5]
        exact ⟨hlo, hhi⟩
      · simp only [dbs_decide, if_neg h1, if_pos h4, if_neg h5]
        have hsub : sub32 info.requested_freq
            (t.freq_step_down * policy.cpuinfo_max_freq % U32 / 100) =
            info.requested_freq - freq_target_down t policy :=
          sub32_of_le _ _ hdown (by omega)
        rw [hsub]
        have hbody : policy.min ≤
            (if info.requested_freq - freq_target_down t policy < policy.min
             then policy.min
             else info.requested_freq - freq_target_down t policy) ∧
            (if info.requested_freq - freq_target_down t policy < policy.min
             then policy.min
             else info.requested_freq - freq_target_down t policy) ≤
              policy.max := by
          split <;> constructor <;> omega
        split
        · exact hbody
        · exact hbody
    · by_cases h6 : policy.cur = t.freq_middle
      · simp only [dbs_decide, if_neg h1, if_neg h4, if_pos h6]
        exact ⟨hlo, hhi⟩
      · simp only [dbs_decide, if_neg h1, if_neg h4, if_neg h6]
        split
        · exact ⟨hmm, le_refl _⟩
        · split
          · exact ⟨le_refl _, hmm⟩
          · constructor <;> omega

/-- C1 counterexample: a state within bounds from which one cycle pushes
`requested_freq` far above `policy->max`. With `freq_step_down = 90`,
reported max `1800000` and `requested_freq = 300000` at the range floor,
the decrease-zone subtraction `300000 - 1620000` wraps to `4293647296`,
which the `< policy->min` clamp does not catch. -/
theorem C1_counterexample :
    (⟨300000, 1800000, 300000, 1800000⟩ : cpufreq_policy).min ≤ 300000 ∧
      (300000 : Nat) ≤ (⟨300000, 1800000, 300000, 1800000⟩ : cpufreq_policy).max ∧
      ¬ (dbs_check_cpu { dbs_tuners_ins with freq_step_down := 90 }
          (fun x => x) ⟨300000, 1800000, 300000, 1800000⟩ []
          ⟨0, 0, 0, 0, 300000, 0, 0⟩).2.info.requested_freq ≤
        (⟨300000, 1800000, 300000, 1800000⟩ : cpufreq_policy).max := by
  decide

/-- C1 (amended): after any cycle of `dbs_check_cpu`, for any sequence
of load samples and any branch taken,
`policy->min ≤ requested_freq ≤ policy->max` is preserved — provided the
decrease-zone step `freq_step_down * reported_max / 100` does not exceed
the pre-cycle `requested_freq` and frequencies are below `2^31`; without
that proviso the unsigned decrease-zone subtraction wraps and the bound
fails (see the counterexample). -/
theorem C1_rate_bounds_amended (t : dbs_tuners) (n2u : Nat → Nat)
    (policy : cpufreq_policy) (group : List (cpu_dbs_info_s × cpu_sample))
    (this_dbs_info : cpu_dbs_info_s)
    (hmm : policy.min ≤ policy.max) (hmax : policy.max < 2147483648)
    (hlo : policy.min ≤ this_dbs_info.requested_freq)
    (hhi : this_dbs_info.requested_freq ≤ policy.max)
    (hdown : freq_target_down t policy ≤ this_dbs_info.requested_freq) :
    policy.min ≤
        (dbs_check_cpu t n2u policy group this_dbs_info).2.info.requested_freq ∧
      (dbs_check_cpu t n2u policy group this_dbs_info).2.info.requested_freq ≤
        policy.max := by
  simp only [dbs_check_cpu]
  exact dbs_decide_preserves_bounds t policy this_dbs_info _ hmm hmax hlo hhi
    hdown

theorem C1_witness :
    (⟨300000, 1800000, 900000, 1800000⟩ : cpufreq_policy).min ≤
        (dbs_check_cpu dbs_tuners_ins (fun x => x)
          ⟨300000, 1800000, 900000, 1800000⟩ []
          ⟨0, 0, 0, 0, 900000, 0, 0⟩).2.info.requested_freq ∧
      (dbs_check_cpu dbs_tuners_ins (fun x => x)
          ⟨300000, 1800000, 900000, 1800000⟩ []
          ⟨0, 0, 0, 0, 900000, 0, 0⟩).2.info.requested_freq ≤
        (⟨300000, 1800000, 900000, 1800000⟩ : cpufreq_policy).max :=
  C1_rate_bounds_amended dbs_tuners_ins (fun x => x)
    ⟨300000, 1800000, 900000, 1800000⟩ [] ⟨0, 0, 0, 0, 900000, 0, 0⟩
    (by decide) (by decide) (by decide) (by decide) (by decide)

/-- C2: the decrease zone does not compute
`max(requested_freq - target, policy->min)`. At `requested_freq =
300000 = policy->min`, `freq_step_down = 100` and reported max
`1800000`, the target is `1800000` and the unsigned subtraction
`requested_freq -= freq_target` wraps to `4293467296`; the subsequent
`< policy->min` clamp does not fire, so `requested_freq` is left at
`4293467296 > policy->max` instead of the claimed `300000` (the claim's
own clamp formula), while — as the claim says — no driver request is
issued because `policy->cur == policy->min`. -/
theorem C2_decrease_wrap_eval :
    (dbs_decide { dbs_tuners_ins with freq_step_down := 100 }
        ⟨300000, 1800000, 300000, 1800000⟩
        ⟨0, 0, 0, 0, 300000, 0, 0⟩ 10).info.requested_freq = 4293467296 ∧
      ¬ (dbs_decide { dbs_tuners_ins with freq_step_down := 100 }
          ⟨300000, 1800000, 300000, 1800000⟩
          ⟨0, 0, 0, 0, 300000, 0, 0⟩ 10).info.requested_freq =
        Nat.max (300000 - 100 * 1800000 / 100) 300000 ∧
      ¬ (dbs_decide { dbs_tuners_ins with freq_step_down := 100 }
          ⟨300000, 1800000, 300000, 1800000⟩
          ⟨0, 0, 0, 0, 300000, 0, 0⟩ 10).info.requested_freq ≤ 1800000 ∧
      (dbs_decide { dbs_tuners_ins with freq_step_down := 100 }
          ⟨300000, 1800000, 300000, 1800000⟩
          ⟨0, 0, 0, 0, 300000, 0, 0⟩ 10).request = none := by
  decide


lemma suspend_units_length (t : dbs_tuners) (l : List suspend_unit) :
    (suspend_units t l).length = l.length := by
  induction l with
  | nil => rfl
  | cons u rest ih => simp [suspend_units, ih]

lemma resume_units_getD (c0 : cpu_dbs_info_s) (d : suspend_unit) :
    forall (l : List suspend_unit) (k i : Nat), i < l.length ->
      ((resume_units c0 (k + 1) l).getD i d).policy.max = c0.cpu_maxcur_freq := by
  intro l
  induction l with
  | nil => intro k i h; simp at h
  | cons u rest ih =>
      intro k i h
      cases i with
      | zero => simp [resume_units]
      | succ j =>
          have hj : j < rest.length := by
            simp only [List.length_cons] at h
            omega
          have hx := ih (k + 1) j hj
          simpa [resume_units] using hx

lemma suspend_then_resume_getD (t : dbs_tuners) (u0 : suspend_unit)
    (rest : List suspend_unit) :
    forall i, i < (u0 :: rest).length ->
      ((suspend_resume t false (suspend_resume t true (u0 :: rest))).getD
          i u0).policy.max = u0.policy.max := by
  intro i hi
  cases i with
  | zero => rfl
  | succ j =>
      have hj : j < (suspend_units t rest).length := by
        rw [suspend_units_length]
        simp only [List.length_cons] at hi
        omega
      exact resume_units_getD { u0.info with cpu_maxcur_freq := u0.policy.max }
        u0 (suspend_units t rest) 0 j hj

/-- C4 counterexample: two online units with different pre-suspend
ceilings (1000000 on unit 0, 1500000 on unit 1) and a nonzero
`freq_max_suspend`; after suspend followed immediately by resume, unit
1's ceiling is not restored to its own pre-suspend value — the resume
loop reads unit 0's snapshot for every unit. -/
theorem C4_counterexample :
    dbs_tuners_ins.freq_max_suspend ≠ 0 ∧
      ¬ (((clarity_late_resume dbs_tuners_ins (clarity_power_suspend
            dbs_tuners_ins
            [⟨⟨0, 0, 0, 0, 0, 1900000, 0⟩, ⟨300000, 1000000, 500000, 1900000⟩⟩,
             ⟨⟨0, 0, 0, 0, 0, 1900000, 0⟩, ⟨300000, 1500000, 700000, 1900000⟩⟩])).1).getD
            1 ⟨⟨0, 0, 0, 0, 0, 1900000, 0⟩, ⟨300000, 1000000, 500000, 1900000⟩⟩).policy.max
        = 1500000 := by
  decide

/-- C4 (amended): with `freq_max_suspend` nonzero, a suspend followed
immediately by a resume sets every online unit's ceiling to unit 0's
pre-suspend ceiling (the resume loop substitutes cpu 0's snapshot for
every cpu other than 0, and cpu 0 restores its own). Hence the
round-trip restores a unit's ceiling exactly iff that unit's pre-suspend
ceiling equals unit 0's — in particular it is exact for unit 0 itself
and whenever all units share one ceiling. -/
theorem C4_suspend_resume_amended (t : dbs_tuners) (u0 : suspend_unit)
    (rest : List suspend_unit) (hfms : t.freq_max_suspend ≠ 0) :
    forall i, i < (u0 :: rest).length ->
      (((clarity_late_resume t (clarity_power_suspend t
          (u0 :: rest))).1).getD i u0).policy.max = u0.policy.max := by
  intro i hi
  have h1 : clarity_power_suspend t (u0 :: rest) =
      suspend_resume t true (u0 :: rest) := by
    simp [clarity_power_suspend, hfms]
  have h2 : (clarity_late_resume t (suspend_resume t true (u0 :: rest))).1 =
      suspend_resume t false (suspend_resume t true (u0 :: rest)) := by
    simp [clarity_late_resume, hfms]
  rw [h1, h2]
  exact suspend_then_resume_getD t u0 rest i hi

theorem C4_witness :
    (((clarity_late_resume dbs_tuners_ins (clarity_power_suspend
        dbs_tuners_ins
        [⟨⟨0, 0, 0, 0, 0, 1900000, 0⟩, ⟨300000, 1000000, 500000, 1900000⟩⟩])).1).getD
        0 ⟨⟨0, 0, 0, 0, 0, 1900000, 0⟩, ⟨300000, 1000000, 500000, 1900000⟩⟩).policy.max
      = 1000000 :=
  C4_suspend_resume_amended dbs_tuners_ins
    ⟨⟨0, 0, 0, 0, 0, 1900000, 0⟩, ⟨300000, 1000000, 500000, 1900000⟩⟩ []
    (by decide) 0 (by decide)


lemma dbs_sample_one_prev (t : dbs_tuners) (n2u : Nat → Nat)
    (j : cpu_dbs_info_s) (s : cpu_sample) :
    ((dbs_sample_one t n2u j s).1).prev_cpu_wall = s.cur_wall_time ∧
      ((dbs_sample_one t n2u j s).1).prev_cpu_idle = s.cur_idle_time := by
  simp only [dbs_sample_one]
  split <;> split <;> simp

lemma dbs_sample_foldl_none (t : dbs_tuners) (n2u : Nat → Nat) :
    forall (units : List (cpu_dbs_info_s × cpu_sample)),
      (forall p, p ∈ units -> (dbs_sample_one t n2u p.1 p.2).2 = none) ->
      forall acc : List cpu_dbs_info_s × Nat,
        units.foldl (dbs_sample_step t n2u) acc =
          (acc.1 ++ units.map (fun p => (dbs_sample_one t n2u p.1 p.2).1),
           acc.2) := by
  intro units
  induction units with
  | nil => intro _ acc; simp
  | cons u rest ih =>
      intro h acc
      have hu := h u (List.mem_cons_self u rest)
      have hstep : dbs_sample_step t n2u acc u =
          (acc.1 ++ [(dbs_sample_one t n2u u.1 u.2).1], acc.2) := by
        simp only [dbs_sample_step, hu]
      rw [List.foldl_cons, hstep,
        ih (fun p hp => h p (List.mem_cons_of_mem u hp)) _]
      simp

lemma dbs_sample_group_all_none (t : dbs_tuners) (n2u : Nat → Nat)
    (units : List (cpu_dbs_info_s × cpu_sample))
    (h : forall p, p ∈ units -> (dbs_sample_one t n2u p.1 p.2).2 = none) :
    dbs_sample_group t n2u units =
      (units.map (fun p => (dbs_sample_one t n2u p.1 p.2).1), 0) := by
  unfold dbs_sample_group
  rw [dbs_sample_foldl_none t n2u units h ([], 0)]
  simp

/-- C5 counterexample: a cycle in which every unit of the group reads a
zero wall-time delta (so every sample is discarded by the guard) does
not leave `requested_freq` unchanged and does issue a rate request: the
group load stays `0`, which falls into the decrease zone, lowering
`requested_freq` from 900000 to 810000 and requesting (810000, at-most). -/
theorem C5_counterexample :
    (forall p, p ∈ ([(⟨5000, 1000, 0, 0, 0, 0, 0⟩, ⟨5000, 1000, 0⟩),
        (⟨6000, 2000, 0, 0, 0, 0, 0⟩, ⟨6000, 2000, 0⟩)] :
          List (cpu_dbs_info_s × cpu_sample)) ->
      sub64 p.2.cur_wall_time p.1.prev_cpu_wall % U32 = 0) ∧
      ¬ ((dbs_check_cpu dbs_tuners_ins (fun x => x)
            ⟨300000, 1800000, 900000, 1800000⟩
            [(⟨5000, 1000, 0, 0, 0, 0, 0⟩, ⟨5000, 1000, 0⟩),
             (⟨6000, 2000, 0, 0, 0, 0, 0⟩, ⟨6000, 2000, 0⟩)]
            ⟨0, 0, 0, 0, 900000, 0, 0⟩).2.info.requested_freq = 900000 ∧
          (dbs_check_cpu dbs_tuners_ins (fun x => x)
            ⟨300000, 1800000, 900000, 1800000⟩
            [(⟨5000, 1000, 0, 0, 0, 0, 0⟩, ⟨5000, 1000, 0⟩),
             (⟨6000, 2000, 0, 0, 0, 0, 0⟩, ⟨6000, 2000, 0⟩)]
            ⟨0, 0, 0, 0, 900000, 0, 0⟩).2.request = none) := by
  decide

/-- C5 (amended): when every unit's sample in a cycle is discarded by the
guard, the `prev_*` counters are still updated to the new readings and
the cycle continues — but the decision is *not* a no-op: the group load
is left at `0`, which (since `down_threshold > 0`) falls into the
decrease zone, so with a nonzero `freq_step_down`, a non-wrapping step
and the current rate above the floor, `requested_freq` drops to
`max(requested_freq - target, policy->min)` and a request with relation
at-most is issued; the previous decision is retained only when
`freq_step_down = 0` or `policy->cur = policy->min` (and even then the
subtraction has already been applied to `requested_freq`). -/
theorem C5_anomaly_amended (t : dbs_tuners) (n2u : Nat → Nat)
    (policy : cpufreq_policy) (group : List (cpu_dbs_info_s × cpu_sample))
    (this_dbs_info : cpu_dbs_info_s)
    (hdisc : forall p, p ∈ group -> (dbs_sample_one t n2u p.1 p.2).2 = none)
    (hdt : 0 < t.down_threshold) (hsd : t.freq_step_down ≠ 0)
    (hft : freq_target_down t policy ≤ this_dbs_info.requested_freq)
    (hreq : this_dbs_info.requested_freq < U32)
    (hcur : policy.cur ≠ policy.min) :
    (dbs_check_cpu t n2u policy group this_dbs_info).1 =
      group.map (fun p => (dbs_sample_one t n2u p.1 p.2).1) ∧
    (forall (j : cpu_dbs_info_s) (s : cpu_sample),
      ((dbs_sample_one t n2u j s).1).prev_cpu_wall = s.cur_wall_time ∧
        ((dbs_sample_one t n2u j s).1).prev_cpu_idle = s.cur_idle_time) ∧
    (dbs_check_cpu t n2u policy group this_dbs_info).2.info.requested_freq =
      Nat.max (this_dbs_info.requested_freq - freq_target_down t policy)
        policy.min ∧
    (dbs_check_cpu t n2u policy group this_dbs_info).2.request =
      some (Nat.max (this_dbs_info.requested_freq - freq_target_down t policy)
              policy.min,
            cpufreq_relation.H) := by
  have hgrp := dbs_sample_group_all_none t n2u group hdisc
  set v := Nat.max (this_dbs_info.requested_freq - freq_target_down t policy)
    policy.min with hv
  have hdec : dbs_decide t policy this_dbs_info 0 =
      { info := { this_dbs_info with requested_freq := v },
        request := some (v, cpufreq_relation.H) } := by
    have hnz : ¬ (0 > t.up_threshold) := by omega
    simp only [dbs_decide]
    rw [if_neg hnz, if_pos hdt, if_neg hsd]
    have hsub : sub32 this_dbs_info.requested_freq
        (t.freq_step_down * policy.cpuinfo_max_freq % U32 / 100) =
        this_dbs_info.requested_freq - freq_target_down t policy :=
      sub32_of_le _ _ hft hreq
    rw [hsub]
    have hmaxv : (if this_dbs_info.requested_freq - freq_target_down t policy <
          policy.min then policy.min
        else this_dbs_info.requested_freq - freq_target_down t policy) =
        Nat.max (this_dbs_info.requested_freq - freq_target_down t policy)
          policy.min := by
      show _ = if this_dbs_info.requested_freq - freq_target_down t policy ≤
          policy.min then policy.min
        else this_dbs_info.requested_freq - freq_target_down t policy
      split_ifs <;> omega
    rw [hmaxv, if_neg hcur]
  refine ⟨?_, fun j s => dbs_sample_one_prev t n2u j s, ?_, ?_⟩
  · simp only [dbs_check_cpu, hgrp]
  · simp only [dbs_check_cpu, hgrp, hdec]
  · simp only [dbs_check_cpu, hgrp, hdec]

theorem C5_witness :
    (dbs_check_cpu dbs_tuners_ins (fun x => x)
        ⟨300000, 1800000, 900000, 1800000⟩
        [(⟨7000, 3000, 0, 0, 0, 0, 0⟩, ⟨7000, 3000, 0⟩)]
        ⟨0, 0, 0, 0, 900000, 0, 0⟩).2.request =
      some (Nat.max (900000 - freq_target_down dbs_tuners_ins
              ⟨300000, 1800000, 900000, 1800000⟩) 300000,
            cpufreq_relation.H) :=
  (C5_anomaly_amended dbs_tuners_ins (fun x => x)
    ⟨300000, 1800000, 900000, 1800000⟩
    [(⟨7000, 3000, 0, 0, 0, 0, 0⟩, ⟨7000, 3000, 0⟩)]
    ⟨0, 0, 0, 0, 900000, 0, 0⟩ (by decide) (by decide) (by decide)
    (by decide) (by decide) (by decide)).2.2.2

end Clarity
